import Mathlib

/-!
Verification of the FreeCAD MCP addon (rpc_server.py and the agent-side
server.py) against its natural-language specification.

The development shallowly embeds the parts of the program the claims talk
about: the GUI task bridge (the request/response queue pair drained by
process_gui_tasks), the property-coercion layer (set_object_property), the
dispatcher operations (create_document, create_object, edit_object,
get_objects, get_object, get_active_screenshot) and the server lifecycle
(start_rpc_server / stop_rpc_server).

Python values carried over XML-RPC are modelled by the inductive PyVal;
machine floats are modelled as exact rationals (the claims only involve
values representable exactly); a Python exception is modelled as an
Except.error carrying its message string.
-/

namespace FreeCADMCP

/-- A JSON-like Python value as carried over XML-RPC: numbers (modelled as
rationals), strings, booleans, lists (also standing for tuples), string-keyed
dicts, and None. -/
inductive PyVal where
  | num (q : ℚ)
  | str (s : String)
  | boolean (b : Bool)
  | list (xs : List PyVal)
  | dict (entries : List (String × PyVal))
  | pynone

/-- A Python dict with string keys (entries in insertion order, keys unique). -/
abbrev PyDict := List (String × PyVal)

/-- Exceptions are modelled by their message string. -/
abbrev Exc := String

/-- Key lookup in a dict (the Python expression d[k] / d.get(k)). -/
def dictLookup (d : PyDict) (k : String) : Option PyVal :=
  (d.find? (fun e => e.1 == k)).map (fun e => e.2)

/-! ## The GUI task bridge

rpc_server.py lines 24-35: a pair of unbounded FIFO queues
(rpc_request_queue, rpc_response_queue) and the drain callback
process_gui_tasks, which runs on the GUI thread, pops every pending task,
executes it, pushes each non-None result onto the response queue, and then
re-arms itself with QTimer.singleShot(500, ...).

A queued task is a zero-argument closure; executing it either raises an
exception or returns an optional value.  Since execution is deterministic
once the closure is built, a task is embedded as its execution outcome. -/

/-- Outcome of executing one queued closure: an uncaught exception, None
(no response entry), or a result value pushed onto the response queue. -/
abbrev GuiTask (V : Type) := Except Exc (Option V)

/-- The shared queue pair (request queue of pending closures, response queue
of results), both FIFO. -/
structure Bridge (V : Type) where
  req : List (GuiTask V)
  resp : List V

/-- Both queues empty (the state right after start_rpc_server). -/
def emptyBridge {V : Type} : Bridge V := ⟨[], []⟩

/-- One firing of process_gui_tasks over the request-queue content: pops
tasks in FIFO order, collecting each non-None result; an uncaught exception
aborts the while loop, leaves the remaining tasks queued, and skips the
QTimer re-arm.  Returns (results emitted, remaining request queue, whether
the timer was re-armed). -/
def drain {V : Type} : List (GuiTask V) → List V × List (GuiTask V) × Bool
  | [] => ([], [], true)
  | t :: ts =>
    match t with
    | .error _ => ([], ts, false)
    | .ok none => drain ts
    | .ok (some v) =>
      let r := drain ts
      (v :: r.1, r.2.1, r.2.2)

/-- One timer tick: drain the request queue onto the response queue.
Returns the new bridge state and whether the drain loop survived to re-arm
its timer. -/
def tick {V : Type} (b : Bridge V) : Bridge V × Bool :=
  let r := drain b.req
  (⟨r.2.1, b.resp ++ r.1⟩, r.2.2)

/-- rpc_request_queue.put(task). -/
def submit {V : Type} (b : Bridge V) (t : GuiTask V) : Bridge V :=
  ⟨b.req ++ [t], b.resp⟩

/-- Submitting a batch of tasks in order (N callers enqueueing before the
next tick fires). -/
def submitAll {V : Type} (b : Bridge V) (ts : List (GuiTask V)) : Bridge V :=
  ts.foldl submit b

/-- rpc_response_queue.get(): a blocking FIFO pop.  none models the caller
still being blocked (no response available). -/
def respGet {V : Type} (b : Bridge V) : Option (V × Bridge V) :=
  match b.resp with
  | [] => none
  | v :: vs => some (v, ⟨b.req, vs⟩)

/-- The submit-and-wait protocol of the dispatcher methods, for a single
caller on an otherwise idle bridge: put the closure on the request queue,
let the GUI tick fire, then block on the response queue.  none models a
caller that is never woken. -/
def submitAndWait {V : Type} (b : Bridge V) (t : GuiTask V) : Option (V × Bridge V) :=
  respGet (tick (submit b t)).1

/-- A task built from a closure that returns the (non-null) value v. -/
def mkTask {V : Type} (v : V) : GuiTask V := .ok (some v)

/-- The result the n-th waiter (0-based, in blocking-get order) receives:
n responses are popped by the earlier waiters, then this waiter pops. -/
def popResponses {V : Type} : Bridge V → Nat → Option V
  | b, 0 => (respGet b).map Prod.fst
  | b, n + 1 =>
    match respGet b with
    | none => none
    | some p => popResponses p.2 n

/-! ## Document and object model

The host CAD application's documents and objects, as far as the embedded
operations observe them: a document is a named list of objects; an object
has a name, a list of declared property names (obj.PropertiesList), its
data attributes and its view-representation attributes (obj.ViewObject). -/

/-- A 3-component spatial vector (FreeCAD.Vector). -/
structure Vec3 where
  x : ℚ
  y : ℚ
  z : ℚ
deriving DecidableEq

/-- A combined position and axis/angle rotation (FreeCAD.Placement built from
a FreeCAD.Vector base and a FreeCAD.Rotation). -/
structure Placement where
  base : Vec3
  axis : Vec3
  angle : ℚ
deriving DecidableEq

/-- A value stored in an object attribute after coercion: either a typed
value produced by one of the coercion branches, or the raw supplied value
from a plain setattr.  Object references are stored by the referenced
object's name. -/
inductive Attr where
  | placement (p : Placement)
  | vector (v : Vec3)
  | objRef (name : String)
  | references (rs : List (String × PyVal))
  | color (r g b a : ℚ)
  | raw (v : PyVal)

/-- A live CAD object. -/
structure FCObject where
  name : String
  propertiesList : List String
  attrs : List (String × Attr)
  viewAttrs : List (String × Attr)

/-- A live CAD document: a named container of objects. -/
structure FCDoc where
  name : String
  objects : List FCObject

/-- doc.getObject(name): the first object with that name, if any. -/
def FCDoc.getObject (doc : FCDoc) (n : String) : Option FCObject :=
  doc.objects.find? (fun o => o.name == n)

/-- setattr on an attribute list: overwrite the existing binding or append. -/
def setAttrVal (attrs : List (String × Attr)) (k : String) (a : Attr) :
    List (String × Attr) :=
  if attrs.any (fun e => e.1 == k) then
    attrs.map (fun e => if e.1 == k then (k, a) else e)
  else
    attrs ++ [(k, a)]

/-- getattr(obj, prop) on the data attributes. -/
def getAttrVal (o : FCObject) (k : String) : Option Attr :=
  (o.attrs.find? (fun e => e.1 == k)).map (fun e => e.2)

/-! ## Property coercion layer

set_object_property (rpc_server.py lines 46-121): an if/elif chain per key,
every key wrapped in try/except, a failure logged via
FreeCAD.Console.PrintError and the iteration continuing with the next key. -/

/-- Coerce a Python value to a number (float(x) or passing x to a
FreeCAD.Vector / FreeCAD.Rotation constructor); anything non-numeric
raises. -/
def pyNum : PyVal → Except Exc ℚ
  | .num q => .ok q
  | _ => .error "could not convert value to float"

/-- v.get(k, dflt): dict lookup with default; calling .get on a non-dict
raises AttributeError. -/
def pyGetD (v : PyVal) (k : String) (dflt : PyVal) : Except Exc PyVal :=
  match v with
  | .dict es => .ok ((dictLookup es k).getD dflt)
  | _ => .error "object has no attribute get"

/-- Numeric v.get(k, dflt) as used for vector components. -/
def numGetD (v : PyVal) (k : String) (dflt : ℚ) : Except Exc ℚ := do
  pyNum (← pyGetD v k (.num dflt))

/-- Lines 52-74: extract the placement from the supplied mapping.  The
position block is val["Base"], else val["Position"], else {}; the rotation
block is val.get("Rotation", {}); each position coordinate defaults to 0;
the rotation axis components default to x=0, y=0, z=1; the angle defaults
to 0. -/
def placementOfVal (es : PyDict) : Except Exc Placement := do
  let pos : PyVal :=
    match dictLookup es "Base" with
    | some p => p
    | none => (dictLookup es "Position").getD (.dict [])
  let rot : PyVal := (dictLookup es "Rotation").getD (.dict [])
  let px ← numGetD pos "x" 0
  let py ← numGetD pos "y" 0
  let pz ← numGetD pos "z" 0
  let axis ← pyGetD rot "Axis" (.dict [])
  let ax ← numGetD axis "x" 0
  let ay ← numGetD axis "y" 0
  let az ← numGetD axis "z" 1
  let ang ← pyNum (← pyGetD rot "Angle" (.num 0))
  pure ⟨⟨px, py, pz⟩, ⟨ax, ay, az⟩, ang⟩

/-- Lines 77-83: FreeCAD.Vector(val.get("x",0), val.get("y",0),
val.get("z",0)) for a dict assigned onto an existing vector property. -/
def vectorOfDict (es : PyDict) : Except Exc Attr := do
  let x ← pyNum ((dictLookup es "x").getD (.num 0))
  let y ← pyNum ((dictLookup es "y").getD (.num 0))
  let z ← pyNum ((dictLookup es "z").getD (.num 0))
  pure (Attr.vector ⟨x, y, z⟩)

/-- The fixed set of reference property names (line 85). -/
def refNames : List String := ["Base", "Tool", "Source", "Profile"]

/-- Unpack one element of a References list as a (name, face) pair
(the tuple unpacking of line 96); anything else raises. -/
def asRefPair : PyVal → Except Exc (String × PyVal)
  | .list [.str n, face] => .ok (n, face)
  | _ => .error "cannot unpack reference pair"

/-- Lines 95-102: resolve each (name, face) pair to a live object, failing
the whole key on the first unresolved name. -/
def resolveRefs (doc : FCDoc) : List PyVal → Except Exc (List (String × PyVal))
  | [] => .ok []
  | v :: vs => do
    let p ← asRefPair v
    match doc.getObject p.1 with
    | some _ => do
      let rest ← resolveRefs doc vs
      pure (p :: rest)
    | none => .error ("Referenced object '" ++ p.1 ++ "' not found.")

/-- (float(val[0]), float(val[1]), float(val[2]), float(val[3])) of
lines 108 and 113; fewer than four elements raises IndexError, non-numeric
components raise at float(). -/
def colorOfList (xs : List PyVal) : Except Exc Attr :=
  match xs with
  | x0 :: x1 :: x2 :: x3 :: _ => do
    let r ← pyNum x0
    let g ← pyNum x1
    let b ← pyNum x2
    let a ← pyNum x3
    pure (Attr.color r g b a)
  | _ => .error "list index out of range"

/-- The ShapeColor rule applied to an entry of a ViewObject mapping
(line 113): subscripts the value directly, so a non-list raises. -/
def viewColorOf (v : PyVal) : Except Exc Attr :=
  match v with
  | .list xs => colorOfList xs
  | _ => .error "object is not subscriptable"

/-- A plain setattr of the raw value on the data attributes (lines 105 and
118). -/
def setPlain (o : FCObject) (prop : String) (val : PyVal) : FCObject :=
  { o with attrs := setAttrVal o.attrs prop (Attr.raw val) }

/-- An atomic coercion branch: the coerced value is computed first and
assigned in a single setattr, so a failure leaves the object untouched. -/
def atomicSet (o : FCObject) (prop : String) (r : Except Exc Attr) :
    FCObject × Option Exc :=
  match r with
  | .ok a => ({ o with attrs := setAttrVal o.attrs prop a }, none)
  | .error e => (o, some e)

/-- Lines 110-115: iterate the ViewObject mapping, assigning each entry on
the view representation (the ShapeColor rule for that key, plain setattr
otherwise).  This branch is not atomic: entries before a failing one stay
applied. -/
def applyViewEntries (o : FCObject) : PyDict → FCObject × Option Exc
  | [] => (o, none)
  | (k, v) :: rest =>
    if k = "ShapeColor" then
      match viewColorOf v with
      | .ok a => applyViewEntries { o with viewAttrs := setAttrVal o.viewAttrs k a } rest
      | .error e => (o, some e)
    else
      applyViewEntries { o with viewAttrs := setAttrVal o.viewAttrs k (Attr.raw v) } rest

/-- Is the current attribute value a FreeCAD.Vector (the isinstance check of
line 77)? -/
def isVectorAttr : Option Attr → Bool
  | some (Attr.vector _) => true
  | _ => false

/-- The per-key body of set_object_property (the if/elif chain of lines
51-118).  The isinstance guards of the source have been distributed over
the shape of the supplied value: the Placement and vector branches require
a dict, the reference branch a string, the References branch a list, and
the chain otherwise falls through to a plain setattr.  Returns the updated
object and the exception message if the key's handling raised. -/
def handleKey (doc : FCDoc) (o : FCObject) (prop : String) (val : PyVal) :
    FCObject × Option Exc :=
  if prop ∈ o.propertiesList then
    match val with
    | .dict es =>
      if prop = "Placement" then
        atomicSet o prop ((placementOfVal es).map Attr.placement)
      else if isVectorAttr (getAttrVal o prop) then
        atomicSet o prop (vectorOfDict es)
      else
        (setPlain o prop val, none)
    | .str s =>
      if prop ∈ refNames then
        match doc.getObject s with
        | some _ => ({ o with attrs := setAttrVal o.attrs prop (Attr.objRef s) }, none)
        | none => (o, some ("Referenced object '" ++ s ++ "' not found."))
      else
        (setPlain o prop val, none)
    | .list xs =>
      if prop = "References" then
        atomicSet o prop ((resolveRefs doc xs).map Attr.references)
      else
        (setPlain o prop val, none)
    | _ => (setPlain o prop val, none)
  else if prop = "ShapeColor" then
    match val with
    | .list xs =>
      match colorOfList xs with
      | .ok a => ({ o with viewAttrs := setAttrVal o.viewAttrs prop a }, none)
      | .error e => (o, some e)
    | _ => (setPlain o prop val, none)
  else if prop = "ViewObject" then
    match val with
    | .dict es => applyViewEntries o es
    | _ => (setPlain o prop val, none)
  else
    (setPlain o prop val, none)

/-- set_object_property (lines 46-121): iterate the supplied mapping; each
key's handling is wrapped in try/except, a raised exception being logged
("Property '<prop>' assignment error: <e>") and the key abandoned, the
iteration continuing with the next key.  Returns the final object and the
list of logged error lines.  The function is total: no exception escapes
the call. -/
def setObjectProperty (doc : FCDoc) (o : FCObject) : PyDict → FCObject × List String
  | [] => (o, [])
  | (k, v) :: rest =>
    let step := handleKey doc o k v
    let r := setObjectProperty doc step.1 rest
    match step.2 with
    | none => r
    | some e => (r.1, ("Property '" ++ k ++ "' assignment error: " ++ e) :: r.2)

/-! ## Command dispatcher

The FreeCADRPC methods (rpc_server.py lines 124-676).  Each externally
visible method builds a closure, submits it through the bridge, blocks on
the response queue and maps the returned value (True or an error string) to
a success/error envelope.  Since the bridge round-trip delivers exactly the
closure's return value to the waiting caller (see the bridge theorems
below), the dispatcher methods are embedded as that composition, with the
closure's execution inlined. -/

/-- What an externally visible GUI closure returns: True, or str(e). -/
inductive GuiRes where
  | success
  | failure (msg : String)
deriving DecidableEq

/-- The uniform response envelope {"success": ..., ...}. -/
structure Envelope where
  success : Bool
  objectName : Option String := none
  documentName : Option String := none
  error : Option String := none
deriving DecidableEq

/-- The application-wide document table (FreeCAD.getDocument /
FreeCAD.listDocuments). -/
structure FCState where
  docs : List FCDoc

/-- FreeCAD.getDocument(name), as the source uses it: the document of that
name, or a falsy value when absent. -/
def FCState.getDocument (st : FCState) (n : String) : Option FCDoc :=
  st.docs.find? (fun d => d.name == n)

/-- Replace the document of the given name (a GUI closure having mutated
it). -/
def FCState.updateDoc (st : FCState) (d : FCDoc) : FCState :=
  ⟨st.docs.map (fun x => if x.name == d.name then d else x)⟩

/-- Replace the object of the given name inside a document. -/
def FCDoc.updateObject (doc : FCDoc) (o : FCObject) : FCDoc :=
  { doc with objects := doc.objects.map (fun x => if x.name == o.name then o else x) }

/-- The Object dataclass of rpc_server.py lines 38-43. -/
structure Object where
  name : String
  type : Option String := none
  analysis : Option String := none
  properties : PyVal := .dict []

/-- obj.properties.items(): iterating a non-dict raises. -/
def asDictE : PyVal → Except Exc PyDict
  | .dict es => .ok es
  | _ => .error "object has no attribute items"

/-- Iterating a Python value as a list. -/
def asListE : PyVal → Except Exc (List PyVal)
  | .list xs => .ok xs
  | _ => .error "object is not iterable"

/-- del d[k]. -/
def dictErase (es : PyDict) (k : String) : PyDict :=
  es.filter (fun e => ¬ e.1 == k)

/-- The host-application primitive FreeCAD.newDocument (plus the subsequent
doc.recompute); creating a document can fail in the host, which surfaces as
a raised exception. -/
structure DocHost where
  newDocument : String → Except Exc FCDoc

/-- FreeCADRPC._create_document_gui (lines 462-466), run as a queued
closure.  The body has no try/except: FreeCAD.newDocument(name) is called,
the document recomputed, a message printed, and True returned — an
exception raised by the host propagates out of the closure into
process_gui_tasks. -/
def createDocumentGuiTask (host : DocHost) (name : String) : GuiTask GuiRes :=
  match host.newDocument name with
  | .ok _ => .ok (some GuiRes.success)
  | .error e => .error e

/-- The external FEM collaborators used by _create_object_gui
(ObjectsFem constructors, GmshTools) and the generic doc.addObject
factory.  Modelled from the spec: these are external collaborators
specified only at their boundary (spec section 1 and section 6); each
either yields the updated document or raises. -/
structure FemHost where
  femMesh : FCDoc → Object → Except Exc FCDoc
  femMake : FCDoc → Object → Except Exc FCDoc
  addObject : String → String → FCObject

/-- The try-body of _create_object_gui (lines 471-522): dispatch on the
object's type tag — the Gmsh-mesh branch, the Fem:: branch, or the generic
doc.addObject followed by set_object_property — then recompute.  Document
recomputation is a host-side geometry update and is modelled as the
identity on the embedded document state. -/
def createObjectBody (host : FemHost) (doc : FCDoc) (obj : Object) :
    Except Exc FCDoc :=
  if obj.type = some "Fem::FemMeshGmsh" ∧ obj.analysis.isSome then
    host.femMesh doc obj
  else
    match obj.type with
    | none => .error "NoneType has no attribute startswith"
    | some ty =>
      if ty.startsWith "Fem::" then
        host.femMake doc obj
      else do
        let res := host.addObject ty obj.name
        let props ← asDictE obj.properties
        let r := setObjectProperty doc res props
        pure { doc with objects := doc.objects ++ [r.1] }

/-- FreeCADRPC._create_object_gui (lines 468-527): a missing document
returns the error string "Document '<name>' not found.\n"; otherwise the
body runs under try/except, any exception becoming str(e). -/
def createObjectGui (host : FemHost) (st : FCState) (docName : String)
    (obj : Object) : GuiRes × FCState :=
  match st.getDocument docName with
  | none => (.failure ("Document '" ++ docName ++ "' not found.\n"), st)
  | some doc =>
    match createObjectBody host doc obj with
    | .ok doc2 => (.success, st.updateDoc doc2)
    | .error e => (.failure e, st)

/-- Building the Object from the obj_data mapping in FreeCADRPC.create_object
(lines 139-144): Name defaults to "New_Object", Type is a required key,
Analysis defaults to None, Properties defaults to {}.  Name and Analysis
values are modelled as strings (the only shapes the claims exercise). -/
def mkObjectData (objData : PyDict) : Except Exc Object :=
  match dictLookup objData "Type" with
  | none => .error "KeyError: Type"
  | some ty =>
    .ok
      { name :=
          match dictLookup objData "Name" with
          | some (.str s) => s
          | _ => "New_Object"
        type := match ty with | .str s => some s | _ => none
        analysis :=
          match dictLookup objData "Analysis" with
          | some (.str s) => some s
          | _ => none
        properties := (dictLookup objData "Properties").getD (.dict []) }

/-- FreeCADRPC.create_object (lines 138-150): build the Object (a missing
Type key raises out of the method), submit _create_object_gui through the
bridge, and wrap the result in an envelope. -/
def createObject (host : FemHost) (st : FCState) (docName : String)
    (objData : PyDict) : Except Exc (Envelope × FCState) := do
  let obj ← mkObjectData objData
  let r := createObjectGui host st docName obj
  pure
    (match r.1 with
     | .success => ({ success := true, objectName := some obj.name }, r.2)
     | .failure e => ({ success := false, error := some e }, r.2))

/-- The try-body of _edit_object_gui (lines 540-559).  Every path first
needs the properties mapping (the References pre-pass tests key membership,
set_object_property iterates .items()), so a non-mapping value raises.  If
the object declares References and the mapping supplies it, each
(name, face) pair is resolved first and the key removed before the generic
pass.  Returns the updated object and the coercion log. -/
def editObjectBody (doc : FCDoc) (objIns : FCObject) (propsVal : PyVal) :
    Except Exc (FCObject × List String) :=
  match asDictE propsVal with
  | .error e => .error e
  | .ok es =>
    if "References" ∈ objIns.propertiesList ∧ (dictLookup es "References").isSome then
      match asListE ((dictLookup es "References").getD .pynone) with
      | .error e => .error e
      | .ok xs =>
        match resolveRefs doc xs with
        | .error e => .error e
        | .ok refs =>
          .ok (setObjectProperty doc
            { objIns with
              attrs := setAttrVal objIns.attrs "References" (Attr.references refs) }
            (dictErase es "References"))
    else
      .ok (setObjectProperty doc objIns es)

/-- FreeCADRPC._edit_object_gui (lines 529-561): "document not found" and
"object not found" error strings for absent targets, then the body under
try/except; doc.recompute() is modelled as the identity. -/
def editObjectGui (st : FCState) (docName : String) (obj : Object) :
    GuiRes × FCState :=
  match st.getDocument docName with
  | none => (.failure ("Document '" ++ docName ++ "' not found.\n"), st)
  | some doc =>
    match doc.getObject obj.name with
    | none =>
      (.failure ("Object '" ++ obj.name ++ "' not found in document '" ++ docName ++ "'.\n"), st)
    | some objIns =>
      match editObjectBody doc objIns obj.properties with
      | .ok r => (.success, st.updateDoc (doc.updateObject r.1))
      | .error e => (.failure e, st)

/-- FreeCADRPC.edit_object (lines 152-162): the applied properties are
properties.get("Properties", {}) of the third positional argument; the
closure's result is wrapped in an envelope. -/
def editObject (st : FCState) (docName objName : String)
    (properties : PyDict) : Envelope × FCState :=
  let obj : Object :=
    { name := objName
      properties := (dictLookup properties "Properties").getD (.dict []) }
  let r := editObjectGui st docName obj
  (match r.1 with
   | .success => ({ success := true, objectName := some objName }, r.2)
   | .failure e => ({ success := false, error := some e }, r.2))

/-- Modelled from the spec: serialize_object lives in
rpc_server/serialize.py, which is not under src/.  Per spec section 4.3,
get_object performs a "read-only serialization of object state" and
"returns an empty list / null if the document or object is absent"; an
absent object therefore serializes to null, a present one to a read-only
mapping of its state. -/
def serializeObject : Option FCObject → PyVal
  | none => .pynone
  | some o => .dict [("Name", .str o.name)]

/-- FreeCADRPC.get_objects (lines 196-201): serialize every object of the
document, or return the empty list when the document is absent; does not go
through the bridge. -/
def getObjects (st : FCState) (docName : String) : PyVal :=
  match st.getDocument docName with
  | some doc => .list (doc.objects.map (fun o => serializeObject (some o)))
  | none => .list []

/-- FreeCADRPC.get_object (lines 203-208): serialize the named object
(null when the document or object is absent). -/
def getObject (st : FCState) (docName objName : String) : PyVal :=
  match st.getDocument docName with
  | some doc => serializeObject (doc.getObject objName)
  | none => .pynone

/-! ## Screenshot capture -/

/-- The nine standard view orientations accepted by the if/elif chain of
_save_active_screenshot (lines 591-608). -/
def viewNames : List String :=
  ["Isometric", "Front", "Top", "Right", "Back", "Left", "Bottom",
   "Dimetric", "Trimetric"]

/-- The host-side view surface for screenshots: whether the active view
exposes saveImage, whether the export to file succeeds (an export failure
raises and is caught as its message), and the base64 encoding of the
exported file.  File reading, encoding and temp-file cleanup are host-side
I/O, out of scope per spec section 1, and modelled as always succeeding. -/
structure ViewHost where
  hasSaveImage : Bool
  saveImageOk : Bool
  saveImageErr : String
  encodedImage : String

/-- FreeCADRPC._save_active_screenshot (lines 584-615): under try/except,
return the no-saveImage string when the view lacks image export, select the
named orientation from the nine-name chain — an unrecognized name raises
ValueError("Invalid view name: <name>"), caught as str(e) — then fit the
view and export the image. -/
def saveActiveScreenshotGui (host : ViewHost) (viewName : String) : GuiRes :=
  if ¬ host.hasSaveImage then
    .failure "Current view does not support screenshots"
  else if viewName ∈ viewNames then
    (if host.saveImageOk then .success else .failure host.saveImageErr)
  else
    .failure ("Invalid view name: " ++ viewName)

/-- FreeCADRPC.get_active_screenshot (lines 224-273): first submit the
check_view_supports_screenshots closure (which catches internally and
returns a boolean); a falsy answer yields None with a logged warning.
Otherwise submit _save_active_screenshot; True leads to reading, encoding
and deleting the temp file, any other result yields None with a logged
warning.  Returns the optional encoded image and the warnings logged by the
caller side. -/
def getActiveScreenshot (host : ViewHost) (viewName : String) :
    Option String × List String :=
  if ¬ host.hasSaveImage then
    (none, ["Current view does not support screenshots"])
  else
    match saveActiveScreenshotGui host viewName with
    | .success => (some host.encodedImage, [])
    | .failure e => (none, ["Failed to capture screenshot: " ++ e])

/-! ## Server lifecycle

start_rpc_server / stop_rpc_server (lines 642-676) manage the module-level
singletons rpc_server_instance and rpc_server_thread.  The state tracks
whether an instance is registered and how many SimpleXMLRPCServer listeners
have been constructed over the process lifetime. -/

/-- The module-level server singleton state. -/
structure ServerState where
  serverInstance : Option Nat
  listenersCreated : Nat
deriving DecidableEq

/-- start_rpc_server(host, port): if an instance already exists, return the
"already running" message and change nothing; otherwise construct a new
listener, register it, start the server thread, arm the GUI drain timer and
return the started message. -/
def startRpcServer (host : String) (port : Nat) (s : ServerState) :
    String × ServerState :=
  match s.serverInstance with
  | some _ => ("RPC Server already running.", s)
  | none =>
    ("RPC Server started at " ++ host ++ ":" ++ toString port ++ ".",
     { serverInstance := some s.listenersCreated
       listenersCreated := s.listenersCreated + 1 })

/-- stop_rpc_server(): if an instance exists, shut it down, join the thread,
clear both singletons and return the stopped message; otherwise return the
"was not running" message and change nothing. -/
def stopRpcServer (s : ServerState) : String × ServerState :=
  match s.serverInstance with
  | some _ => ("RPC Server stopped.", { s with serverInstance := none })
  | none => ("RPC Server was not running.", s)

/-! ## Concrete instances used by the theorems below -/

/-- A host in which FreeCAD.newDocument raises. -/
def raisingDocHost : DocHost := ⟨fun _ => .error "database is locked"⟩

/-- A one-entry dict when the component is supplied, an empty dict
otherwise. -/
def optQEntry (k : String) (v : Option ℚ) : PyDict :=
  match v with
  | some q => [(k, PyVal.num q)]
  | none => []

/-- A Placement value mapping with each numeric component optionally
present: {"Base": {...}, "Rotation": {"Axis": {...}, "Angle"?: ...}}. -/
def mkPlacementVal (b1 b2 b3 a1 a2 a3 ang : Option ℚ) : PyDict :=
  [("Base", PyVal.dict (optQEntry "x" b1 ++ optQEntry "y" b2 ++ optQEntry "z" b3)),
   ("Rotation", PyVal.dict
     (("Axis", PyVal.dict (optQEntry "x" a1 ++ optQEntry "y" a2 ++ optQEntry "z" a3)) ::
      optQEntry "Angle" ang))]

/-- A concrete object declaring a Placement property. -/
def placementObj : FCObject :=
  ⟨"Box", ["Placement"],
   [("Placement", Attr.placement ⟨⟨0, 0, 0⟩, ⟨0, 0, 1⟩, 0⟩)], []⟩

/-- A concrete document holding that object. -/
def boxDoc : FCDoc := ⟨"Doc", [placementObj]⟩

/-- An object declaring a Base reference property and a Label. -/
def padObj : FCObject := ⟨"Pad", ["Base", "Label"], [], []⟩

/-- A host whose external constructors all succeed trivially. -/
def trivialFemHost : FemHost :=
  ⟨fun d _ => .ok d, fun d _ => .ok d, fun _ n => ⟨n, [], [], []⟩⟩

/-- A concrete one-document, one-object state. -/
def oneObjState : FCState := ⟨[⟨"D", [⟨"O", [], [], []⟩]⟩]⟩

/-! ## Bridge theorems (C1, C2, C3) -/

/-- Submitting a batch appends it to the request queue and leaves the
response queue alone. -/
theorem submitAll_eq {V : Type} (ts : List (GuiTask V)) (b : Bridge V) :
    submitAll b ts = ⟨b.req ++ ts, b.resp⟩ := by
  induction ts generalizing b with
  | nil => simp [submitAll]
  | cons t ts ih =>
    simp [submitAll, submit] at ih ⊢
    rw [ih]
    simp

/-- Draining a queue of closures that all return a (non-null) value emits
exactly those values in FIFO order, empties the queue and re-arms the
timer. -/
theorem drain_map_mkTask {V : Type} (vs : List V) :
    drain (vs.map mkTask) = (vs, [], true) := by
  induction vs with
  | nil => rfl
  | cons v vs ih => simp [drain, mkTask, ih]

/-- The n-th successive blocking get pops the n-th element of the response
queue. -/
theorem popResponses_eq_get? {V : Type} (n : Nat) (b : Bridge V) :
    popResponses b n = b.resp.get? n := by
  induction n generalizing b with
  | zero =>
    obtain ⟨req, resp⟩ := b
    cases resp <;> rfl
  | succ n ih =>
    obtain ⟨req, resp⟩ := b
    cases resp with
    | nil => rfl
    | cons v vs => simp [popResponses, respGet, ih]

/-- C1: a closure that always returns a non-null value, submitted through
the bridge (enqueued on the request queue, then a blocking get on the
response queue), delivers exactly that value to the waiting caller, wakes
it exactly once (the response queue is empty again afterwards), and the
drain tick re-arms its timer. -/
theorem bridge_submit_and_wait_delivers_result {V : Type} (t : GuiTask V)
    (v : V) (h : t = .ok (some v)) :
    submitAndWait emptyBridge t = some (v, emptyBridge) ∧
    (tick (submit emptyBridge t)).2 = true := by
  subst h
  exact ⟨rfl, rfl⟩

/-- Witness for C1 at the concrete closure returning 5. -/
theorem bridge_submit_and_wait_delivers_result_witness :
    submitAndWait emptyBridge (mkTask (5 : Nat)) = some (5, emptyBridge) ∧
    (tick (submit emptyBridge (mkTask (5 : Nat)))).2 = true :=
  bridge_submit_and_wait_delivers_result (mkTask (5 : Nat)) 5 rfl

/-- C2: when N closures, each returning a non-null value, are enqueued by N
waiting callers and the GUI tick drains the request queue, the response
queue holds the N results in submission order, and the n-th waiter (in
blocking-get order) receives the n-th result. -/
theorem bridge_responses_in_submission_order {V : Type} (vs : List V)
    (n : Nat) (h : n < vs.length) :
    (tick (submitAll emptyBridge (vs.map mkTask))).1.resp = vs ∧
    popResponses (tick (submitAll emptyBridge (vs.map mkTask))).1 n =
      some (vs.get ⟨n, h⟩) := by
  have hall : submitAll emptyBridge (vs.map mkTask) = ⟨vs.map mkTask, []⟩ := by
    rw [submitAll_eq]
    rfl
  have hresp : (tick (submitAll emptyBridge (vs.map mkTask))).1.resp = vs := by
    rw [hall]
    simp [tick, drain_map_mkTask]
  refine ⟨hresp, ?_⟩
  rw [popResponses_eq_get?, hresp]
  exact List.get?_eq_get h

/-- Witness for C2: three submissions, the second waiter receives the
second value. -/
theorem bridge_responses_in_submission_order_witness :
    popResponses
      (tick (submitAll emptyBridge ((["a", "b", "c"] : List String).map mkTask))).1 1 =
      some "b" :=
  (bridge_responses_in_submission_order ["a", "b", "c"] 1 (by decide)).2

/-- C3 (code bug): the spec requires every dispatcher-authored closure to
catch its own exceptions, but _create_document_gui has no try/except — when
the host's newDocument raises, the closure propagates the exception into
process_gui_tasks: the drain loop aborts without re-arming its timer, no
response is enqueued, and the waiting caller is never unblocked. -/
theorem create_document_closure_propagates_exception :
    createDocumentGuiTask raisingDocHost "MyDoc" =
      Except.error "database is locked" ∧
    tick (submit emptyBridge (createDocumentGuiTask raisingDocHost "MyDoc")) =
      (emptyBridge, false) ∧
    submitAndWait emptyBridge (createDocumentGuiTask raisingDocHost "MyDoc") =
      none :=
  ⟨rfl, rfl, rfl⟩

/-! ## Property coercion theorems (C4, C5) -/

/-- Extraction of a placement from an optional-component mapping: each
missing position coordinate defaults to 0, the missing axis x and y
components default to 0, a missing axis z component defaults to 1, a
missing angle defaults to 0. -/
theorem placementOfVal_mkPlacementVal (b1 b2 b3 a1 a2 a3 ang : Option ℚ) :
    placementOfVal (mkPlacementVal b1 b2 b3 a1 a2 a3 ang) =
      .ok ⟨⟨b1.getD 0, b2.getD 0, b3.getD 0⟩,
           ⟨a1.getD 0, a2.getD 0, a3.getD 1⟩, ang.getD 0⟩ := by
  cases b1 <;> cases b2 <;> cases b3 <;> cases a1 <;> cases a2 <;> cases a3 <;>
    cases ang <;> rfl

/-- C4 counterexample: assigning a Placement mapping whose Rotation block is
omitted — {"Base": {"x":1, "y":2, "z":3}} — produces a rotation axis of
(0, 0, 1), not the all-zero axis the claim's "each omitted axis component
defaults to 0" predicts. -/
theorem placement_axis_default_counterexample :
    getAttrVal
      (setObjectProperty boxDoc placementObj
        [("Placement",
          PyVal.dict [("Base",
            PyVal.dict [("x", .num 1), ("y", .num 2), ("z", .num 3)])])]).1
      "Placement" =
      some (Attr.placement ⟨⟨1, 2, 3⟩, ⟨0, 0, 1⟩, 0⟩) ∧
    (⟨0, 0, 1⟩ : Vec3) ≠ ⟨0, 0, 0⟩ := by
  exact ⟨rfl, by decide⟩

/-- C4 (amended): for every object declaring a Placement property and every
optional-component mapping supplied for it, property coercion assigns the
placement whose missing position coordinates default to 0, whose missing
axis x and y components default to 0, whose missing axis z component
defaults to 1 (the unit Z axis), and whose missing angle defaults to 0; in
particular the documented example yields position (1,2,3), axis (0,0,1) and
angle 90. -/
theorem placement_coercion_defaults (doc : FCDoc) (o : FCObject)
    (hprop : "Placement" ∈ o.propertiesList)
    (b1 b2 b3 a1 a2 a3 ang : Option ℚ) :
    handleKey doc o "Placement" (.dict (mkPlacementVal b1 b2 b3 a1 a2 a3 ang)) =
      ({ o with attrs := setAttrVal o.attrs "Placement" (Attr.placement
          ⟨⟨b1.getD 0, b2.getD 0, b3.getD 0⟩,
           ⟨a1.getD 0, a2.getD 0, a3.getD 1⟩, ang.getD 0⟩) },
       none) ∧
    placementOfVal
      [("Base", PyVal.dict [("x", .num 1), ("y", .num 2), ("z", .num 3)]),
       ("Rotation", PyVal.dict
         [("Axis", PyVal.dict [("x", .num 0), ("y", .num 0), ("z", .num 1)]),
          ("Angle", .num 90)])] =
      .ok ⟨⟨1, 2, 3⟩, ⟨0, 0, 1⟩, 90⟩ := by
  refine ⟨?_, rfl⟩
  simp [handleKey, hprop, placementOfVal_mkPlacementVal, atomicSet, Except.map]

/-- Witness for C4 at a concrete object and mapping supplying only the
position x coordinate. -/
theorem placement_coercion_defaults_witness :
    handleKey boxDoc placementObj "Placement"
        (.dict (mkPlacementVal (some 1) none none none none none none)) =
      ({ placementObj with attrs := setAttrVal placementObj.attrs "Placement" (Attr.placement
          ⟨⟨1, 0, 0⟩, ⟨0, 0, 1⟩, 0⟩) }, none) :=
  (placement_coercion_defaults boxDoc placementObj (by decide)
    (some 1) none none none none none none).1

/-- Processing a concatenation of property mappings processes the first
batch, then the second from the resulting object, concatenating the logs. -/
theorem setObjectProperty_append (doc : FCDoc) (o : FCObject) (ps qs : PyDict) :
    setObjectProperty doc o (ps ++ qs) =
      ((setObjectProperty doc (setObjectProperty doc o ps).1 qs).1,
       (setObjectProperty doc o ps).2 ++
         (setObjectProperty doc (setObjectProperty doc o ps).1 qs).2) := by
  induction ps generalizing o with
  | nil => simp [setObjectProperty]
  | cons hd tl ih =>
    obtain ⟨k, v⟩ := hd
    simp only [List.cons_append, setObjectProperty]
    cases hstep : (handleKey doc o k v).2 <;>
      simp [ih (handleKey doc o k v).1]

/-- C5: an exception raised while handling one key of the properties
mapping (here: a key whose handling leaves the object untouched, as with an
unresolved string reference for Base) is caught and logged as
"Property '<key>' assignment error: <e>", the key is skipped, and every
remaining key is processed exactly as if the failing key were absent; the
property-application call itself is total, so no exception propagates out
of it. -/
theorem set_object_property_per_key_isolation (doc : FCDoc) (o : FCObject)
    (pre : PyDict) (k : String) (v : PyVal) (post : PyDict) (e : Exc)
    (h : handleKey doc (setObjectProperty doc o pre).1 k v =
          ((setObjectProperty doc o pre).1, some e)) :
    setObjectProperty doc o (pre ++ (k, v) :: post) =
      ((setObjectProperty doc (setObjectProperty doc o pre).1 post).1,
       (setObjectProperty doc o pre).2 ++
         ("Property '" ++ k ++ "' assignment error: " ++ e) ::
           (setObjectProperty doc (setObjectProperty doc o pre).1 post).2) := by
  rw [setObjectProperty_append]
  simp only [setObjectProperty, h]

/-- Witness for C5: assigning {"Base": "NonexistentObject",
"Label": "Hello"} in a document without that reference skips Base with a
logged error and still applies Label. -/
theorem set_object_property_per_key_isolation_witness :
    setObjectProperty boxDoc padObj
        ([] ++ ("Base", PyVal.str "NonexistentObject") ::
          [("Label", PyVal.str "Hello")]) =
      ((setObjectProperty boxDoc (setObjectProperty boxDoc padObj []).1
          [("Label", PyVal.str "Hello")]).1,
       (setObjectProperty boxDoc padObj []).2 ++
         ("Property '" ++ "Base" ++ "' assignment error: " ++
            "Referenced object 'NonexistentObject' not found.") ::
           (setObjectProperty boxDoc (setObjectProperty boxDoc padObj []).1
              [("Label", PyVal.str "Hello")]).2) :=
  set_object_property_per_key_isolation boxDoc padObj []
    "Base" (PyVal.str "NonexistentObject") [("Label", PyVal.str "Hello")]
    "Referenced object 'NonexistentObject' not found." rfl

/-! ## Dispatcher error-handling theorems (C6, C7, C8) -/

/-- C6: create_object with a document name that names no existing document
returns (without raising) the failure envelope whose error message carries
"Document '<name>' not found." (followed by the trailing newline the GUI
closure appends). -/
theorem create_object_missing_document_error (host : FemHost) (st : FCState)
    (docName : String) (objData : PyDict) (ty : PyVal)
    (hty : dictLookup objData "Type" = some ty)
    (hdoc : st.getDocument docName = none) :
    createObject host st docName objData =
      .ok ({ success := false,
             error := some (("Document '" ++ docName ++ "' not found.") ++ "\n") },
           st) := by
  simp only [createObject, mkObjectData, hty, createObjectGui, hdoc]
  simp [String.append_assoc]

/-- Witness for C6 on an empty application state. -/
theorem create_object_missing_document_error_witness :
    createObject trivialFemHost ⟨[]⟩ "Missing" [("Type", PyVal.str "Part::Box")] =
      .ok ({ success := false,
             error := some (("Document '" ++ "Missing" ++ "' not found.") ++ "\n") },
           (⟨[]⟩ : FCState)) :=
  create_object_missing_document_error trivialFemHost ⟨[]⟩ "Missing"
    [("Type", PyVal.str "Part::Box")] (PyVal.str "Part::Box") rfl rfl

/-- C7: get_objects on a non-existent document returns the empty list and
never an error, and get_object returns null whenever the document or the
named object is absent. -/
theorem get_objects_absent_document (st : FCState) (docName objName : String) :
    (st.getDocument docName = none →
      getObjects st docName = .list [] ∧
      getObject st docName objName = .pynone) ∧
    (∀ doc, st.getDocument docName = some doc → doc.getObject objName = none →
      getObject st docName objName = .pynone) := by
  constructor
  · intro h
    exact ⟨by simp [getObjects, h], by simp [getObject, h]⟩
  · intro doc h1 h2
    simp [getObject, h1, h2, serializeObject]

/-- Witness for C7: an empty application state, and a state holding one
empty document. -/
theorem get_objects_absent_document_witness :
    (getObjects ⟨[]⟩ "Doc" = .list [] ∧ getObject ⟨[]⟩ "Doc" "Obj" = .pynone) ∧
    getObject ⟨[⟨"D", []⟩]⟩ "D" "Obj" = .pynone :=
  ⟨(get_objects_absent_document ⟨[]⟩ "Doc" "Obj").1 rfl,
   (get_objects_absent_document ⟨[⟨"D", []⟩]⟩ "D" "Obj").2 ⟨"D", []⟩ rfl rfl⟩

/-- C8 counterexample: the view-orientation chain of _save_active_screenshot
enumerates nine names, not eight — "Trimetric" is a ninth accepted
orientation. -/
theorem view_orientations_count_counterexample :
    viewNames.length = 9 ∧ viewNames.length ≠ 8 ∧
    "Trimetric" ∈ viewNames ∧
    saveActiveScreenshotGui ⟨true, true, "", "img"⟩ "Trimetric" = .success := by
  refine ⟨rfl, by decide, by decide, rfl⟩

/-- C8 (amended): screenshot capture selects the view orientation from a
fixed enumerated set of nine named orientations; for every view name
outside that set (on a view that supports image export) the operation fails
with the descriptive error "Invalid view name: <name>", and whenever the
capture closure does not succeed, get_active_screenshot returns null with a
logged warning rather than raising. -/
theorem screenshot_view_selection :
    (∀ (host : ViewHost) (n : String), host.hasSaveImage = true →
      n ∉ viewNames →
      saveActiveScreenshotGui host n = .failure ("Invalid view name: " ++ n) ∧
      getActiveScreenshot host n =
        (none, ["Failed to capture screenshot: " ++ ("Invalid view name: " ++ n)])) ∧
    (∀ (host : ViewHost) (n : String),
      saveActiveScreenshotGui host n ≠ .success →
      (getActiveScreenshot host n).1 = none ∧
      (getActiveScreenshot host n).2 ≠ []) := by
  constructor
  · intro host n h1 h2
    have hs : saveActiveScreenshotGui host n =
        .failure ("Invalid view name: " ++ n) := by
      simp [saveActiveScreenshotGui, h1, h2]
    exact ⟨hs, by simp [getActiveScreenshot, h1, hs]⟩
  · intro host n h
    by_cases hsi : host.hasSaveImage = true
    · cases hres : saveActiveScreenshotGui host n with
      | success => exact absurd hres h
      | failure e => constructor <;> simp [getActiveScreenshot, hsi, hres]
    · constructor <;> simp [getActiveScreenshot, hsi]

/-- Witness for C8 at the unrecognized view name "Sideways". -/
theorem screenshot_view_selection_witness :
    saveActiveScreenshotGui ⟨true, true, "", "img"⟩ "Sideways" =
      .failure ("Invalid view name: " ++ "Sideways") ∧
    (getActiveScreenshot ⟨true, true, "", "img"⟩ "Sideways").1 = none :=
  ⟨(screenshot_view_selection.1 ⟨true, true, "", "img"⟩ "Sideways" rfl (by decide)).1,
   (screenshot_view_selection.2 ⟨true, true, "", "img"⟩ "Sideways" (by decide)).1⟩

/-! ## Lifecycle theorems (C9) -/

/-- C9: starting the RPC endpoint is idempotent — a second start while it
is running returns the "already running" message and leaves the state
unchanged, with exactly one listener having been constructed by the first
start — and stopping while it is not running returns the "was not running"
message and leaves the state unchanged. -/
theorem rpc_server_lifecycle_idempotent :
    (∀ (h : String) (p : Nat) (s : ServerState), s.serverInstance.isSome →
      startRpcServer h p s = ("RPC Server already running.", s)) ∧
    (∀ (h : String) (p : Nat) (s : ServerState), s.serverInstance = none →
      startRpcServer h p (startRpcServer h p s).2 =
        ("RPC Server already running.", (startRpcServer h p s).2) ∧
      (startRpcServer h p s).2.listenersCreated = s.listenersCreated + 1) ∧
    (∀ s : ServerState, s.serverInstance = none →
      stopRpcServer s = ("RPC Server was not running.", s)) := by
  refine ⟨?_, ?_, ?_⟩
  · intro h p s hs
    obtain ⟨i, hi⟩ := Option.isSome_iff_exists.mp hs
    simp [startRpcServer, hi]
  · intro h p s hs
    simp [startRpcServer, hs]
  · intro s hs
    simp [stopRpcServer, hs]

/-- Witness for C9 at the stopped initial state and a running state. -/
theorem rpc_server_lifecycle_idempotent_witness :
    startRpcServer "localhost" 9875 (⟨some 0, 1⟩ : ServerState) =
      ("RPC Server already running.", (⟨some 0, 1⟩ : ServerState)) ∧
    startRpcServer "localhost" 9875
        (startRpcServer "localhost" 9875 (⟨none, 0⟩ : ServerState)).2 =
      ("RPC Server already running.",
       (startRpcServer "localhost" 9875 (⟨none, 0⟩ : ServerState)).2) ∧
    stopRpcServer (⟨none, 0⟩ : ServerState) =
      ("RPC Server was not running.", (⟨none, 0⟩ : ServerState)) :=
  ⟨rpc_server_lifecycle_idempotent.1 "localhost" 9875 ⟨some 0, 1⟩ rfl,
   (rpc_server_lifecycle_idempotent.2.1 "localhost" 9875 ⟨none, 0⟩ rfl).1,
   rpc_server_lifecycle_idempotent.2.2 ⟨none, 0⟩ rfl⟩

/-! ## edit_object theorems (C10) -/

/-- Replacing, in a list, every element of a given name by a fixed element
of that same name leaves the element found under that name equal to the
replacement, provided some element of that name was present. -/
theorem find?_map_update {α : Type} (name : α → String) (l : List α)
    (n : String) (d : α) (hd : name d = n)
    (hex : (l.find? (fun x => name x == n)).isSome) :
    (l.map (fun x => if name x == name d then d else x)).find?
      (fun x => name x == n) = some d := by
  induction l with
  | nil => simp at hex
  | cons x xs ih =>
    by_cases hx : name x = n
    · rw [List.map_cons, if_pos (by rw [hx, hd]; exact beq_self_eq_true n)]
      exact List.find?_cons_of_pos _ (by simp [hd])
    · rw [List.find?_cons_of_neg _ (by simp [hx])] at hex
      rw [List.map_cons, if_neg (by simp [hd, hx])]
      rw [List.find?_cons_of_neg _ (by simp [hx])]
      exact ih hex

/-- Finding a document under a name implies the document carries that
name. -/
theorem getDocument_name (st : FCState) (n : String) (d : FCDoc)
    (h : st.getDocument n = some d) : d.name = n := by
  have := List.find?_some h
  exact eq_of_beq this

/-- Finding an object under a name implies the object carries that name. -/
theorem getObject_name (doc : FCDoc) (n : String) (o : FCObject)
    (h : doc.getObject n = some o) : o.name = n := by
  have := List.find?_some h
  exact eq_of_beq this

/-- C10: for every call to the RPC-level edit_object, the properties applied
to the object are taken only from the "Properties" key of the third
argument; when that mapping has no "Properties" key (as when the agent-side
proxy forwards a flat property mapping), no property at all is applied —
the named object is written back unchanged — yet the call still returns a
success envelope for an existing object. -/
theorem edit_object_properties_key_only (st : FCState)
    (docName objName : String) (props : PyDict) (doc : FCDoc)
    (objIns : FCObject)
    (hp : dictLookup props "Properties" = none)
    (hd : st.getDocument docName = some doc)
    (ho : doc.getObject objName = some objIns) :
    editObject st docName objName props =
      ({ success := true, objectName := some objName },
       st.updateDoc (doc.updateObject objIns)) ∧
    (st.updateDoc (doc.updateObject objIns)).getDocument docName =
      some (doc.updateObject objIns) ∧
    (doc.updateObject objIns).getObject objName = some objIns := by
  have hname : doc.name = docName := getDocument_name st docName doc hd
  have honame : objIns.name = objName := getObject_name doc objName objIns ho
  refine ⟨?_, ?_, ?_⟩
  · simp only [editObject, hp, Option.getD, editObjectGui, hd, ho,
      editObjectBody, asDictE]
    have hcond : ¬ ("References" ∈ objIns.propertiesList ∧
        (dictLookup ([] : PyDict) "References").isSome) := by
      simp [dictLookup]
    simp [hcond, setObjectProperty]
  · have hname2 : (doc.updateObject objIns).name = docName := hname
    have hd2 : st.docs.find? (fun x => x.name == docName) = some doc := hd
    have hex : (st.docs.find? (fun x => x.name == docName)).isSome := by
      simp [hd2]
    exact find?_map_update FCDoc.name st.docs docName (doc.updateObject objIns)
      hname2 hex
  · have ho2 : doc.objects.find? (fun x => x.name == objName) = some objIns := ho
    have hex : (doc.objects.find? (fun x => x.name == objName)).isSome := by
      simp [ho2]
    exact find?_map_update FCObject.name doc.objects objName objIns honame hex

/-- Witness for C10: editing with the flat mapping {"Height": 10} (no
"Properties" key) succeeds and leaves the object untouched. -/
theorem edit_object_properties_key_only_witness :
    editObject oneObjState "D" "O" [("Height", PyVal.num 10)] =
      ({ success := true, objectName := some "O" },
       oneObjState.updateDoc
         ((⟨"D", [⟨"O", [], [], []⟩]⟩ : FCDoc).updateObject ⟨"O", [], [], []⟩)) ∧
    ((⟨"D", [⟨"O", [], [], []⟩]⟩ : FCDoc).updateObject
        ⟨"O", [], [], []⟩).getObject "O" = some ⟨"O", [], [], []⟩ :=
  ⟨(edit_object_properties_key_only oneObjState "D" "O"
      [("Height", PyVal.num 10)] ⟨"D", [⟨"O", [], [], []⟩]⟩ ⟨"O", [], [], []⟩
      rfl rfl rfl).1,
   (edit_object_properties_key_only oneObjState "D" "O"
      [("Height", PyVal.num 10)] ⟨"D", [⟨"O", [], [], []⟩]⟩ ⟨"O", [], [], []⟩
      rfl rfl rfl).2.2⟩

end FreeCADMCP
